import Mathlib

/-!
Verification of the register resolution, bit-field codec and memory access
engine of `gdb-svd.py` (svd-tools), against its natural-language
specification.  The Python source is embedded shallowly:

* Python's arbitrary-precision non-negative integers become `Nat`;
  `value & ~mask` on non-negative operands is exactly `Nat.ldiff value mask`.
* names handled by `str.upper()` / `str.startswith` become `List Char`
  (`PyStr`), with `str_upper` mapping `Char.toUpper` (the names involved are
  ASCII identifiers from SVD files);
* the gdb transport (`gdb.execute` of the formatted read/write command
  together with the regex parse of the read reply) is the external
  collaborator; it is modelled as an oracle `Transport` giving, per address,
  the outcome of a read command (command raised / reply unparseable /
  parsed value) and of a write command (raised or ok);
* raised Python exceptions become explicit result constructors; the list of
  transport commands actually executed (`gdb.execute` calls) is returned
  alongside each result so that "no transport command was issued" is a
  statement about the model.
-/

namespace GdbSvd

/-- Access types of `cmsis_svd.parser.SVDAccessType`; a register or field
may also carry no access type at all (`None` in Python, `Option` here). -/
inductive SVDAccessType
  | READ_ONLY
  | WRITE_ONLY
  | READ_WRITE
  | WRITE_ONCE
  | READ_WRITE_ONCE
deriving DecidableEq, Repr

/-- Source `allowed_to_read` (gdb-svd.py lines 55-61): membership of the
access value in `[None, READ_ONLY, READ_WRITE, READ_WRITE_ONCE]`. -/
def allowed_to_read : Option SVDAccessType → Bool
  | none => true
  | some .READ_ONLY => true
  | some .READ_WRITE => true
  | some .READ_WRITE_ONCE => true
  | some .WRITE_ONLY => false
  | some .WRITE_ONCE => false

/-- Source `allowed_to_write` (lines 64-71): membership of the access value
in `[None, WRITE_ONLY, READ_WRITE, WRITE_ONCE, READ_WRITE_ONCE]`. -/
def allowed_to_write : Option SVDAccessType → Bool
  | none => true
  | some .WRITE_ONLY => true
  | some .READ_WRITE => true
  | some .WRITE_ONCE => true
  | some .READ_WRITE_ONCE => true
  | some .READ_ONLY => false

/-- Display string of an access value, source `get_access_str`
(lines 74-77): `None` renders as the READ_WRITE value.  The strings are the
`SVDAccessType.value` strings of the cmsis-svd library. -/
def access_type_value : SVDAccessType → String
  | .READ_ONLY => "read-only"
  | .WRITE_ONLY => "write-only"
  | .READ_WRITE => "read-write"
  | .WRITE_ONCE => "writeOnce"
  | .READ_WRITE_ONCE => "read-writeOnce"

/-- Source `get_access_str` (lines 74-77). -/
def get_access_str : Option SVDAccessType → String
  | none => access_type_value .READ_WRITE
  | some a => access_type_value a

/-- Python strings as lists of characters (the SVD names are ASCII). -/
abbrev PyStr := List Char

/-- Python `s.upper()` on the ASCII identifiers used as SVD names. -/
def str_upper (s : PyStr) : PyStr := s.map Char.toUpper

/-- Python `s.startswith(q)`. -/
def startswith (s q : PyStr) : Bool := q.isPrefixOf s

/-- A bit-field of a register: `bit_offset` is the LSB index, `bit_width`
its width, `access` its optional declared access type. -/
structure SVDField where
  name : PyStr
  bit_offset : Nat
  bit_width : Nat
  access : Option SVDAccessType
deriving DecidableEq, Repr

/-- A register; `parent_base_address` embeds `register.parent.base_address`
(the owning peripheral's base), so the absolute address of the register is
`parent_base_address + address_offset` as in the source. -/
structure SVDRegister where
  name : PyStr
  address_offset : Nat
  reset_value : Nat
  access : Option SVDAccessType
  parent_base_address : Nat
  fields : List SVDField
deriving DecidableEq, Repr

/-- Absolute address, source expression
`register.parent.base_address + register.address_offset`. -/
def reg_addr (register : SVDRegister) : Nat :=
  register.parent_base_address + register.address_offset

/-- Source `get_field_value` (lines 267-268):
`(reg_values >> bit_offset) & ((1 << bit_width) - 1)`. -/
def get_field_value (bit_offset bit_width reg_values : Nat) : Nat :=
  (reg_values >>> bit_offset) &&& ((1 <<< bit_width) - 1)

/-- The merge performed by `set_register` (lines 330-336):
`mask = ((1 << bit_width) - 1) << bit_offset; val &= ~mask;
val |= value << bit_offset`.  Python `val & ~mask` on non-negative
integers is `Nat.ldiff val mask` (keep the bits of `val` not in `mask`). -/
def merge_field (word bit_offset bit_width value : Nat) : Nat :=
  let max_val := (1 <<< bit_width) - 1
  let mask := max_val <<< bit_offset
  Nat.ldiff word mask ||| (value <<< bit_offset)

/-- Outcome of executing the formatted read command at one address and
parsing its reply — the transport oracle's read side.  `raises` is
`gdb.execute` itself raising; `unparseable` is a reply on which
`re.search` finds no match (so `match.group` raises); `value` is a reply
whose captured hex group parses to `v`. -/
inductive ReadExec
  | raises (msg : String)
  | unparseable (reply : String)
  | value (v : Nat)
deriving DecidableEq, Repr

/-- Read side fails iff no integer value was obtained. -/
def ReadExec.fails : ReadExec → Bool
  | .value _ => false
  | .raises _ => true
  | .unparseable _ => true

/-- The external gdb transport: per address, the outcome of the read
command, and per address/value, the outcome of the write command
(`some msg` when `gdb.execute` raises, `none` when it succeeds). -/
structure Transport where
  readOutcome : Nat → ReadExec
  writeOutcome : Nat → Nat → Option String

/-- A transport command actually executed (a `gdb.execute` call of the
formatted `read_cmd` or `write_cmd`). -/
inductive Cmd
  | readCmd (addr : Nat)
  | writeCmd (addr : Nat) (value : Nat)
deriving DecidableEq, Repr

/-- Result of `GdbSvdCmd.read` (lines 341-357).  Note the source's
peculiarity: a transport failure inside the `try` block is RETURNED as the
caught exception object (`return err`), not raised — `errObj` models that
returned exception value.  Only the access check raises
(`NotReadableError`). -/
inductive ReadResult
  | notReadableRaised
  | errObj (msg : String)
  | val (v : Nat)
deriving DecidableEq, Repr

/-- Source `GdbSvdCmd.read` (lines 341-357), paired with the list of
transport commands it executed: the access check comes before any
`gdb.execute`; after it, the read command is executed exactly once, and
any failure of execution or of reply parsing is returned as an exception
object. -/
def read (t : Transport) (register : SVDRegister) : ReadResult × List Cmd :=
  if allowed_to_read register.access = false then
    (.notReadableRaised, [])
  else
    let addr := reg_addr register
    match t.readOutcome addr with
    | .raises msg => (.errObj msg, [.readCmd addr])
    | .unparseable _ => (.errObj "AttributeError", [.readCmd addr])
    | .value v => (.val v, [.readCmd addr])

/-- Result of `GdbSvdCmd.write` (lines 359-367). -/
inductive WriteResult
  | notWritableRaised
  | writeErrRaised (msg : String)
  | ok
deriving DecidableEq, Repr

/-- Source `GdbSvdCmd.write` (lines 359-367), with its command trace: the
access check (`allowed_to_write register.access`) precedes the single
`gdb.execute` of the write command. -/
def write (t : Transport) (register : SVDRegister) (val : Nat) :
    WriteResult × List Cmd :=
  if allowed_to_write register.access = false then
    (.notWritableRaised, [])
  else
    let addr := reg_addr register
    match t.writeOutcome addr val with
    | some msg => (.writeErrRaised msg, [.writeCmd addr val])
    | none => (.ok, [.writeCmd addr val])

/-- Result of `GdbSvdCmd.set_register` (lines 323-339).
`valueTooWideRaised` is the `Exception("Invalid value, > max of field")`;
`typeErrorRaised` is the `TypeError` raised by `val &= ~mask` when
`read` has returned an exception object instead of an integer. -/
inductive SetResult
  | valueTooWideRaised
  | notReadableRaised
  | typeErrorRaised
  | notWritableRaised
  | writeErrRaised (msg : String)
  | ok
deriving DecidableEq, Repr

/-- Source `GdbSvdCmd.set_register` (lines 323-339), with its command
trace.  With a field: width check first, then `read`, then the merge,
then `write`; without a field the given value is written directly. -/
def set_register (t : Transport) (register : SVDRegister) (value : Nat)
    (field : Option SVDField) : SetResult × List Cmd :=
  match field with
  | none =>
    match write t register value with
    | (.notWritableRaised, cs) => (.notWritableRaised, cs)
    | (.writeErrRaised m, cs) => (.writeErrRaised m, cs)
    | (.ok, cs) => (.ok, cs)
  | some f =>
    let max_val := (1 <<< f.bit_width) - 1
    if value > max_val then (.valueTooWideRaised, [])
    else
      match read t register with
      | (.notReadableRaised, cs) => (.notReadableRaised, cs)
      | (.errObj _, cs) => (.typeErrorRaised, cs)
      | (.val v, cs) =>
        let val := merge_field v f.bit_offset f.bit_width value
        match write t register val with
        | (.notWritableRaised, cs2) => (.notWritableRaised, cs ++ cs2)
        | (.writeErrRaised m, cs2) => (.writeErrRaised m, cs ++ cs2)
        | (.ok, cs2) => (.ok, cs ++ cs2)

/-- A row of the value table built by `get_register_row` (lines 284-306).
The string rendering is thin I/O; the row carries the data rendered:
`accessRow` is the `NotReadableError` branch (access string in place of a
value), `errorRow` the `except Exception` branch, `valueRow` the success
branch with each field's extracted value. -/
inductive RegRow
  | accessRow (name : PyStr) (addr : Nat) (access : String)
  | errorRow (name : PyStr) (addr : Nat) (errText : String)
  | valueRow (name : PyStr) (addr : Nat) (value reset : Nat)
      (fields : List (SVDField × Nat))
deriving Repr

/-- Source `GdbSvdCmd.get_register_row` (lines 284-306).  The `try` wraps
only `self.read(register)`; since the source's `read` RETURNS transport
failures as exception objects, the `except Exception` error-row branch is
unreachable for them.  When `read` returns an exception object, the
subsequent `get_field_string` (which computes `value >> bit_offset`) — or,
for a field-less register, the `f"{value:#x}"` format — raises a
`TypeError` that `get_register_row` does not catch; that raised exception
is the `Except.error` of this embedding. -/
def get_register_row (t : Transport) (register : SVDRegister) :
    Except String RegRow :=
  match (read t register).1 with
  | .notReadableRaised =>
    .ok (.accessRow register.name (reg_addr register)
          (get_access_str register.access))
  | .errObj _ => .error "TypeError"
  | .val v =>
    .ok (.valueRow register.name (reg_addr register) v register.reset_value
          (register.fields.map
            (fun f => (f, get_field_value f.bit_offset f.bit_width v))))

/-- Source `GdbSvdCmd.print_registers` (lines 308-321): builds one row per
register in order; an exception raised by a row aborts the loop and
propagates (it is only caught by the sub-command's top-level handler,
which abandons the whole listing). -/
def print_registers (t : Transport) (registers : List SVDRegister) :
    Except String (List RegRow) :=
  registers.mapM (get_register_row t)

/-- Resolution outcome of the prefix filtering used by the `get` and
`info` sub-commands. -/
inductive Resolution
  | NONE
  | UNIQUE (name : PyStr)
  | AMBIGUOUS (names : List PyStr)
deriving DecidableEq, Repr

/-- The name resolution of `GdbSvdGetCmd.invoke` (lines 393-418) and
`GdbSvdInfoCmd.invoke` (lines 530-555): filter the candidates whose
declared name starts with the query (the caller has already upper-cased
the query); zero matches report no-match, exactly one proceeds, several
report ambiguity and stop. -/
def resolve (candidates : List PyStr) (query : PyStr) : Resolution :=
  match candidates.filter (fun x => startswith x query) with
  | [] => .NONE
  | [x] => .UNIQUE x
  | x :: y :: rest => .AMBIGUOUS (x :: y :: rest)

/-- The matching of `GdbSvdCmd.complete` (lines 184-187, 194-196,
204-206): `x.upper().startswith(query.upper())` — both sides upper-cased. -/
def complete_match (name query : PyStr) : Bool :=
  startswith (str_upper name) (str_upper query)

/-- The matching of the `get`/`info` `invoke` paths (lines 396, 434, 533,
571): `x.name.startswith(query.upper())` — only the query is upper-cased,
the declared name is compared as written. -/
def invoke_match (name query : PyStr) : Bool :=
  startswith name (str_upper query)

/-- The lookup used by `GdbSvdSetCmd.invoke` for registers and fields
(lines 486, 490): `[x for x in xs if x.name == query.upper()][0]` — exact
equality against the upper-cased argument; and for peripherals (line 473)
the dict lookup `self.peripherals[query.upper()]`, an exact key match.
`none` models the raised `IndexError`/`KeyError` (caught by `invoke`,
which prints a message and performs no write). -/
def set_resolve_by_name {α : Type} (name_of : α → PyStr) (xs : List α)
    (query : PyStr) : Option α :=
  (xs.filter (fun x => name_of x == str_upper query)).head?

/-- Register-level instance of the `set` lookup (line 486). -/
def set_resolve_register (registers : List SVDRegister) (query : PyStr) :
    Option SVDRegister :=
  set_resolve_by_name SVDRegister.name registers query

/-! Concrete device-model and transport fixtures used to evaluate the
embedded operations on explicit inputs. -/

/-- Transport whose reads all parse to the value 0 and whose writes all
succeed. -/
def t_ok : Transport := ⟨fun _ => .value 0, fun _ _ => none⟩

/-- Transport whose read commands all raise (for example an OpenOCD data
abort) and whose writes would succeed. -/
def t_readfail : Transport := ⟨fun _ => .raises "data abort", fun _ _ => none⟩

/-- Transport that raises only when reading address 0x40020008 and parses
every other read to 0. -/
def t_fail8 : Transport :=
  ⟨fun a => if a = 0x40020008 then .raises "data abort" else .value 0,
   fun _ _ => none⟩

/-- A two-bit field at the bottom of its register, no declared access. -/
def fMODE : SVDField := ⟨"MODE0".toList, 0, 2, none⟩

/-- A two-bit field declared read-only. -/
def fLOCK : SVDField := ⟨"LOCK".toList, 0, 2, some .READ_ONLY⟩

/-- A read-write register owning `fMODE` and `fLOCK`. -/
def regMODER : SVDRegister :=
  ⟨"MODER".toList, 0, 0, some .READ_WRITE, 0x40020000, [fMODE, fLOCK]⟩

/-- A read-only register (readable, not writable). -/
def regOTYPER : SVDRegister :=
  ⟨"OTYPER".toList, 4, 0, some .READ_ONLY, 0x40020000, [fMODE]⟩

/-- A register named UART1 with no fields. -/
def regUART1 : SVDRegister :=
  ⟨"UART1".toList, 0, 0, none, 0x40000000, []⟩

/-- Five readable registers at consecutive word addresses; the third one
sits at 0x40020008, the address at which `t_fail8` raises. -/
def regs5 : List SVDRegister :=
  [⟨"R0".toList, 0, 0, none, 0x40020000, [fMODE]⟩,
   ⟨"R1".toList, 4, 0, none, 0x40020000, [fMODE]⟩,
   ⟨"R2".toList, 8, 0, none, 0x40020000, [fMODE]⟩,
   ⟨"R3".toList, 12, 0, none, 0x40020000, [fMODE]⟩,
   ⟨"R4".toList, 16, 0, none, 0x40020000, [fMODE]⟩]

/-! Theorems. -/

/-- Helper: a value bounded by the field's maximum is below `2 ^ width`. -/
theorem lt_two_pow_of_le_max {v w : Nat} (hv : v ≤ (1 <<< w) - 1) :
    v < 2 ^ w := by
  rw [Nat.one_shiftLeft] at hv
  have := Nat.pos_pow_of_pos w (by norm_num : 0 < 2)
  omega

/-- Helper: bit `i` of the merged word, fully unfolded. -/
theorem testBit_merge_field (word o w v i : Nat) :
    (merge_field word o w v).testBit i =
      ((word.testBit i && !(decide (o ≤ i) && decide (i - o < w))) ||
       (decide (o ≤ i) && v.testBit (i - o))) := by
  simp only [merge_field, Nat.testBit_or, Nat.testBit_ldiff,
    Nat.testBit_shiftLeft, Nat.one_shiftLeft, Nat.testBit_two_pow_sub_one,
    ge_iff_le]

/-- C1: for every word, bit offset, bit width and value `v` with
`0 ≤ v ≤ (1 <<< bit_width) - 1`, extracting the field after merging it
yields `v` back:
`get_field_value bit_offset bit_width (merge_field word bit_offset bit_width v) = v`. -/
theorem extract_merge_roundtrip (word o w v : Nat)
    (hv : v ≤ (1 <<< w) - 1) :
    get_field_value o w (merge_field word o w v) = v := by
  have hv' : v < 2 ^ w := lt_two_pow_of_le_max hv
  apply Nat.eq_of_testBit_eq
  intro i
  simp only [get_field_value, Nat.testBit_and, Nat.testBit_shiftRight,
    Nat.one_shiftLeft, Nat.testBit_two_pow_sub_one, testBit_merge_field]
  by_cases h : i < w
  · have h1 : o ≤ o + i := Nat.le_add_right o i
    have h2 : o + i - o = i := by omega
    simp [h, h1, h2]
  · have hvb : v.testBit i = false := by
      apply Nat.testBit_lt_two_pow
      calc v < 2 ^ w := hv'
        _ ≤ 2 ^ i := Nat.pow_le_pow_right (by norm_num) (by omega)
    simp [h, hvb]

/-- Witness for C1 at word `0xffffffff`, offset 5, width 2, value 3. -/
theorem extract_merge_roundtrip_witness :
    (3 : Nat) ≤ (1 <<< 2) - 1 ∧
    get_field_value 5 2 (merge_field 0xffffffff 5 2 3) = 3 :=
  ⟨by decide, extract_merge_roundtrip 0xffffffff 5 2 3 (by decide)⟩

/-- C2: for every word, bit offset, bit width and in-range value `v`,
every bit of `merge_field word bit_offset bit_width v` at an index outside
`[bit_offset, bit_offset + bit_width)` equals the corresponding bit of
`word` — the merge touches exactly the field's own mask. -/
theorem merge_frame (word o w v i : Nat) (hv : v ≤ (1 <<< w) - 1)
    (hi : i < o ∨ o + w ≤ i) :
    (merge_field word o w v).testBit i = word.testBit i := by
  have hv' : v < 2 ^ w := lt_two_pow_of_le_max hv
  rw [testBit_merge_field]
  rcases hi with hlt | hge
  · have h : ¬ o ≤ i := by omega
    simp [h]
  · have h1 : o ≤ i := by omega
    have h2 : ¬ (i - o < w) := by omega
    have hvb : v.testBit (i - o) = false := by
      apply Nat.testBit_lt_two_pow
      calc v < 2 ^ w := hv'
        _ ≤ 2 ^ (i - o) := Nat.pow_le_pow_right (by norm_num) (by omega)
    simp [h1, h2, hvb]

/-- Witness for C2 at word `0xff`, offset 0, width 2, value 3, bit 7. -/
theorem merge_frame_witness :
    (3 : Nat) ≤ (1 <<< 2) - 1 ∧
    (merge_field 0xff 0 2 3).testBit 7 = (0xff : Nat).testBit 7 :=
  ⟨by decide, merge_frame 0xff 0 2 3 7 (by decide) (Or.inr (by decide))⟩

/-- C3 counterexample: a field-scoped set through a field declared
READ_ONLY inside a READ_WRITE register succeeds — the source's `write`
(called by `set_register`) checks `allowed_to_write(register.access)` only
and never consults the field's declared access mode, so no `NotWritable`
failure occurs where the claim requires one. -/
theorem set_ignores_field_access_cex :
    allowed_to_write fLOCK.access = false ∧
    allowed_to_write regMODER.access = true ∧
    (set_register t_ok regMODER 1 (some fLOCK)).1 = .ok :=
  ⟨rfl, rfl, rfl⟩

/-- C3 amended: the write-permission check of a field-scoped set is
governed solely by the register's declared access mode — `NotWritable` is
raised exactly when the width check passed, the preceding read produced an
integer, and `allowed_to_write register.access` is false; the field's own
access mode is never consulted. -/
theorem set_field_notWritable_iff (t : Transport) (register : SVDRegister)
    (value : Nat) (f : SVDField) :
    (set_register t register value (some f)).1 = .notWritableRaised ↔
      (value ≤ (1 <<< f.bit_width) - 1 ∧
       allowed_to_read register.access = true ∧
       (∃ v, t.readOutcome (reg_addr register) = .value v) ∧
       allowed_to_write register.access = false) := by
  unfold set_register read write
  by_cases hmax : value > (1 <<< f.bit_width) - 1
  · simp only [if_pos hmax]
    constructor
    · intro h; exact absurd h (by simp)
    · intro h; omega
  · simp only [if_neg hmax]
    by_cases hr : allowed_to_read register.access = false
    · simp [hr]
    · simp only [if_neg hr]
      rcases hro : t.readOutcome (reg_addr register) with msg | reply | v
      · simp
      · simp
      · by_cases hw : allowed_to_write register.access = false
        · simp only [if_pos hw]
          simp_all
        · simp only [if_neg hw]
          rcases t.writeOutcome (reg_addr register)
              (merge_field v f.bit_offset f.bit_width value) with _ | m
          · simp_all
          · simp_all

/-- Witness for C3 amended: a field-scoped set of the in-range value 1 on
the read-only register fails `NotWritable`. -/
theorem set_field_notWritable_iff_witness :
    (set_register t_ok regOTYPER 1 (some fMODE)).1 = .notWritableRaised :=
  (set_field_notWritable_iff t_ok regOTYPER 1 fMODE).mpr
    ⟨by decide, rfl, ⟨0, rfl⟩, rfl⟩

/-- C4 evaluated at the failing input: a bulk get over five readable
registers where the transport read of the third raises.  The source's
`read` returns the caught exception object instead of raising, so the row
rendering raises `TypeError` and the whole listing is aborted — there is
no error-annotated row and the remaining registers yield no rows, contrary
to the claim; with a fully working transport the same listing yields five
rows. -/
theorem bulk_get_aborts_on_transport_failure :
    print_registers t_fail8 regs5 = .error "TypeError" ∧
    ∃ rows, print_registers t_ok regs5 = Except.ok rows ∧ rows.length = 5 :=
  ⟨rfl, _, rfl, rfl⟩

/-- C5 counterexample: a field-scoped set on a register that is readable
but not writable (access READ_ONLY) fails `NotWritable` only after one
transport read command has been issued — not zero transport commands as
the claim requires. -/
theorem notWritable_after_read_cmd_cex :
    allowed_to_read regOTYPER.access = true ∧
    allowed_to_write regOTYPER.access = false ∧
    set_register t_ok regOTYPER 1 (some fMODE) =
      (.notWritableRaised, [.readCmd (reg_addr regOTYPER)]) :=
  ⟨rfl, rfl, rfl⟩

/-- C5 amended: each transport primitive performs its own permission check
before issuing its own command — a `NotReadable` read and a `NotWritable`
write issue no command at all, and whenever a permission or width failure
is the outcome of a set, no transport WRITE command has been issued; but a
field-scoped set on a readable-not-writable register has issued its
transport read before failing `NotWritable`. -/
theorem read_cases (t : Transport) (register : SVDRegister) :
    read t register = (.notReadableRaised, []) ∨
    (∃ msg, read t register = (.errObj msg, [.readCmd (reg_addr register)])) ∨
    (∃ v, read t register = (.val v, [.readCmd (reg_addr register)])) := by
  unfold read
  by_cases hr : allowed_to_read register.access = false
  · simp [hr]
  · simp only [if_neg hr]
    rcases t.readOutcome (reg_addr register) with m | r | v <;> simp

theorem write_cases (t : Transport) (register : SVDRegister) (val : Nat) :
    write t register val = (.notWritableRaised, []) ∨
    (∃ msg, write t register val =
      (.writeErrRaised msg, [.writeCmd (reg_addr register) val])) ∨
    write t register val = (.ok, [.writeCmd (reg_addr register) val]) := by
  unfold write
  by_cases hw : allowed_to_write register.access = false
  · simp [hw]
  · simp only [if_neg hw]
    rcases t.writeOutcome (reg_addr register) val with _ | m <;> simp

theorem permission_fail_no_write_cmd (t : Transport) (register : SVDRegister)
    (value : Nat) (field : Option SVDField) :
    ((read t register).1 = .notReadableRaised → (read t register).2 = []) ∧
    ((write t register value).1 = .notWritableRaised →
      (write t register value).2 = []) ∧
    (∀ a w, Cmd.writeCmd a w ∈ (set_register t register value field).2 →
      (set_register t register value field).1 ≠ .notWritableRaised ∧
      (set_register t register value field).1 ≠ .notReadableRaised ∧
      (set_register t register value field).1 ≠ .valueTooWideRaised) := by
  refine ⟨?_, ?_, ?_⟩
  · rcases read_cases t register with h | ⟨m, h⟩ | ⟨v, h⟩ <;> simp [h]
  · rcases write_cases t register value with h | ⟨m, h⟩ | h <;> simp [h]
  · intro a w
    rcases field with _ | f
    · unfold set_register
      rcases write_cases t register value with h | ⟨m, h⟩ | h <;> simp [h]
    · unfold set_register
      by_cases hmax : value > (1 <<< f.bit_width) - 1
      · simp [hmax]
      · rcases read_cases t register with h | ⟨m, h⟩ | ⟨v, h⟩
        · simp [h, hmax]
        · simp [h, hmax]
        · rcases write_cases t register
              (merge_field v f.bit_offset f.bit_width value) with
            h2 | ⟨m2, h2⟩ | h2 <;> simp [h, h2, hmax]

/-- Witness for C5 amended: the write primitive on the read-only register
fails `NotWritable` with an empty command trace. -/
theorem permission_fail_no_write_cmd_witness :
    (write t_ok regOTYPER 1).2 = [] :=
  (permission_fail_no_write_cmd t_ok regOTYPER 1 none).2.1 rfl

/-- C6: a field-scoped set fails with the width error
(`Invalid value, > max of field`) exactly when the value exceeds
`(1 <<< bit_width) - 1`, and when it so fails no transport command — read
or write — has been issued. -/
theorem set_field_valueTooWide_iff (t : Transport) (register : SVDRegister)
    (value : Nat) (f : SVDField) :
    ((set_register t register value (some f)).1 = .valueTooWideRaised ↔
      value > (1 <<< f.bit_width) - 1) ∧
    (value > (1 <<< f.bit_width) - 1 →
      (set_register t register value (some f)).2 = []) := by
  by_cases hmax : value > (1 <<< f.bit_width) - 1
  · refine ⟨⟨fun _ => hmax, fun _ => ?_⟩, fun _ => ?_⟩
    · unfold set_register; simp [hmax]
    · unfold set_register; simp [hmax]
  · refine ⟨⟨fun hres => ?_, fun h => absurd h hmax⟩, fun h => absurd h hmax⟩
    exfalso
    unfold set_register at hres
    rcases read_cases t register with h | ⟨m, h⟩ | ⟨v, h⟩
    · simp [h, hmax] at hres
    · simp [h, hmax] at hres
    · rcases write_cases t register
          (merge_field v f.bit_offset f.bit_width value) with
        h2 | ⟨m2, h2⟩ | h2 <;> simp [h, h2, hmax] at hres

/-- Witness for C6: value 5 on a two-bit field fails the width check with
an empty command trace. -/
theorem set_field_valueTooWide_iff_witness :
    (set_register t_ok regMODER 5 (some fMODE)).1 = .valueTooWideRaised ∧
    (set_register t_ok regMODER 5 (some fMODE)).2 = [] :=
  ⟨(set_field_valueTooWide_iff t_ok regMODER 5 fMODE).1.mpr (by decide),
   (set_field_valueTooWide_iff t_ok regMODER 5 fMODE).2 (by decide)⟩

/-- C7 counterexample: against candidates UART and UART1, the query UART —
which exactly equals exactly one candidate's name — resolves to AMBIGUOUS,
not UNIQUE: the `invoke` resolution of `get`/`info` is a plain prefix
filter with no exact-match tie-break. -/
theorem exact_match_not_unique_cex :
    resolve ["UART".toList, "UART1".toList] ("UART".toList) =
      .AMBIGUOUS ["UART".toList, "UART1".toList] ∧
    resolve ["UART".toList, "UART1".toList] ("UART".toList) ≠
      .UNIQUE ("UART".toList) := by
  exact ⟨by decide, by decide⟩

/-- C7 amended: exact equality with one candidate does not win over prefix
ambiguity — whenever the query exactly equals one candidate but a second,
distinct candidate also has the query as a prefix of its name, the
resolution result is never UNIQUE (the source reports multiple matches and
stops). -/
theorem exact_prefix_ambiguity (cs : List PyStr) (q x y : PyStr)
    (hx : x ∈ cs) (hy : y ∈ cs) (hexact : x = q) (hne : x ≠ y)
    (hpre : startswith y q = true) :
    ∀ r, resolve cs q ≠ .UNIQUE r := by
  intro r
  have hxm : x ∈ cs.filter (fun z => startswith z q) := by
    refine List.mem_filter.mpr ⟨hx, ?_⟩
    subst hexact
    simp [startswith, List.isPrefixOf_iff_prefix]
  have hym : y ∈ cs.filter (fun z => startswith z q) :=
    List.mem_filter.mpr ⟨hy, hpre⟩
  have h2 : 2 ≤ (cs.filter (fun z => startswith z q)).length := by
    have h1 : y ∈ (cs.filter (fun z => startswith z q)).erase x :=
      (List.mem_erase_of_ne (Ne.symm hne)).mpr hym
    have hp := List.length_pos_of_mem h1
    rw [List.length_erase_of_mem hxm] at hp
    omega
  unfold resolve
  rcases hfe : cs.filter (fun z => startswith z q) with _ | ⟨a, _ | ⟨b, rest⟩⟩
  · rw [hfe] at h2; simp at h2
  · rw [hfe] at h2; simp at h2
  · simp

/-- Witness for C7 amended at candidates UART, UART1 and query UART. -/
theorem exact_prefix_ambiguity_witness :
    resolve ["UART".toList, "UART1".toList] ("UART".toList) ≠
      .UNIQUE ("UART1".toList) :=
  exact_prefix_ambiguity ["UART".toList, "UART1".toList] ("UART".toList)
    ("UART".toList) ("UART1".toList) (by decide) (by decide) rfl (by decide)
    (by decide) ("UART1".toList)

/-- C8 counterexample: a peripheral declared `Uart1` is matched by the
completion path for the query `uart1` but NOT by the `get`/`info`
resolution path, which upper-cases only the query and compares it against
the declared name as written — so command-path matching is not
case-insensitive in the candidate's name. -/
theorem invoke_match_not_case_insensitive_cex :
    complete_match ("Uart1".toList) ("uart1".toList) = true ∧
    invoke_match ("Uart1".toList) ("uart1".toList) = false := by
  exact ⟨by decide, by decide⟩

/-- C8 amended: only the completion path upper-cases both sides; the
command resolution path upper-cases the query alone and compares it
against the declared name as written, so it agrees with case-insensitive
matching exactly on candidates whose declared names are already
upper-case; and the completion match holds precisely when the upper-cased
query is a prefix of the upper-cased name. -/
theorem invoke_match_upper_name (name query : PyStr) :
    (str_upper name = name →
      invoke_match name query = complete_match name query) ∧
    (complete_match name query = true ↔ str_upper query <+: str_upper name) := by
  constructor
  · intro h
    unfold invoke_match complete_match
    rw [h]
  · unfold complete_match startswith
    exact List.isPrefixOf_iff_prefix

/-- Witness for C8 amended: on the upper-case name UART1 the two matchers
agree for the lower-case query uart. -/
theorem invoke_match_upper_name_witness :
    invoke_match ("UART1".toList) ("uart".toList) =
      complete_match ("UART1".toList) ("uart".toList) :=
  (invoke_match_upper_name ("UART1".toList) ("uart".toList)).1 (by decide)

/-- C9 counterexample: the strict prefix UART of the sole register UART1
resolves under the prefix resolution used by `get`/`info`, but the `set`
command's exact lookup finds nothing (the source's
`[r for r in registers if r.name == arg.upper()][0]` raises and the write
is never performed). -/
theorem set_prefix_not_resolved_cex :
    resolve ["UART1".toList] ("UART".toList) = .UNIQUE ("UART1".toList) ∧
    set_resolve_register [regUART1] ("UART".toList) = none := by
  exact ⟨by decide, rfl⟩

/-- C9 amended: the `set` command does not use prefix resolution — each of
its name arguments is resolved by exact equality of the declared name with
the upper-cased argument (dict lookup for the peripheral, exact list
filtering for register and field): any resolved entity's name equals the
upper-cased query exactly, and when no candidate's name equals it the
lookup fails and no write is performed. -/
theorem set_lookup_exact {α : Type} (name_of : α → PyStr) (xs : List α)
    (query : PyStr) :
    (∀ r, set_resolve_by_name name_of xs query = some r →
      name_of r = str_upper query) ∧
    ((∀ r ∈ xs, name_of r ≠ str_upper query) →
      set_resolve_by_name name_of xs query = none) := by
  constructor
  · intro r hr
    unfold set_resolve_by_name at hr
    rcases hfe : xs.filter (fun x => name_of x == str_upper query) with _ | ⟨a, l⟩
    · rw [hfe] at hr; simp at hr
    · rw [hfe] at hr
      simp only [List.head?_cons, Option.some.injEq] at hr
      subst hr
      have ham : a ∈ xs.filter (fun x => name_of x == str_upper query) := by
        rw [hfe]; exact List.mem_cons_self a l
      have := (List.mem_filter.mp ham).2
      exact eq_of_beq this
  · intro hnone
    unfold set_resolve_by_name
    have : xs.filter (fun x => name_of x == str_upper query) = [] := by
      apply List.filter_eq_nil_iff.mpr
      intro a ha
      simp only [beq_iff_eq]
      exact hnone a ha
    rw [this]
    rfl

/-- Witness for C9 amended: the lookup of UART among registers [UART1]
yields nothing, since no declared name equals UART. -/
theorem set_lookup_exact_witness :
    set_resolve_by_name SVDRegister.name [regUART1] ("UART".toList) = none :=
  (set_lookup_exact SVDRegister.name [regUART1] ("UART".toList)).2 (by decide)

/-- C10: for a field-scoped set on a readable, writable register whose
transport read fails (the backend command raises or the reply is
unparseable), the operation terminates with a failure — the source's
`read` returns the exception object, and `val &= ~mask` then raises a
`TypeError` — and no transport write command is ever issued, so the
register is never written with a word derived from an invalid read. -/
theorem set_field_read_failure_no_write (t : Transport)
    (register : SVDRegister) (value : Nat) (f : SVDField)
    (hr : allowed_to_read register.access = true)
    (hw : allowed_to_write register.access = true)
    (hfail : (t.readOutcome (reg_addr register)).fails = true) :
    (set_register t register value (some f)).1 ≠ .ok ∧
    ∀ a w, Cmd.writeCmd a w ∉ (set_register t register value (some f)).2 := by
  unfold set_register
  by_cases hmax : value > (1 <<< f.bit_width) - 1
  · simp [hmax]
  · have hread : read t register =
        (.errObj (match t.readOutcome (reg_addr register) with
          | .raises msg => msg
          | .unparseable _ => "AttributeError"
          | .value _ => ""), [.readCmd (reg_addr register)]) := by
      unfold read
      simp only [hr, Bool.true_eq_false, if_false]
      rcases hro : t.readOutcome (reg_addr register) with m | r | v
      · simp
      · simp
      · rw [hro] at hfail; simp [ReadExec.fails] at hfail
    rw [hread]
    simp [hmax]

/-- Witness for C10: with a transport whose reads raise, a field-scoped
set on the read-write register fails and its trace holds no write
command. -/
theorem set_field_read_failure_no_write_witness :
    (set_register t_readfail regMODER 1 (some fMODE)).1 ≠ .ok ∧
    Cmd.writeCmd (reg_addr regMODER) 1 ∉
      (set_register t_readfail regMODER 1 (some fMODE)).2 :=
  ⟨(set_field_read_failure_no_write t_readfail regMODER 1 fMODE rfl rfl
      rfl).1,
   (set_field_read_failure_no_write t_readfail regMODER 1 fMODE rfl rfl
      rfl).2 (reg_addr regMODER) 1⟩

end GdbSvd
